import Mathlib

/-!
Verification of the `bcinfo::MetadataExtractor` component
(libbcc/include/bcinfo/MetadataExtractor.h).

The header carries the complete definitions of the six static
`hasForEachSignature*` bit-test helpers and of every accessor; those are
embedded below directly from the source.  The bodies of `extract()`, the
`populate*Metadata` helpers and the constructors are declared in the header
but their translation units are not in the tree, so they are modelled from
the specification (each such definition says so in its doc comment).
-/

namespace bcinfo

/-- The `RSFloatPrecision` enum from the header:
`RS_FP_Full = 0`, `RS_FP_Relaxed = 1`. -/
inductive RSFloatPrecision where
  | RS_FP_Full
  | RS_FP_Relaxed
deriving DecidableEq

/-- Modelled from the spec: a metadata operand is either a string constant or
an integer constant (spec section 6: "each operand is either a string constant
or an integer constant").  The underlying IR types are external to this
repository. -/
inductive MDOperand where
  | str : String → MDOperand
  | int : Nat → MDOperand
deriving DecidableEq

/-- Modelled from the spec: the read-only module abstraction seen by the
extractor (spec section 6).  Each of the five well-known named-metadata
categories is optionally present (`none` = the named node is absent from the
module); the pragma node holds entries that are themselves operand lists; the
three scalar metadata entries are optionally present integers. -/
structure Module where
  exportVarNames : Option (List MDOperand)
  exportFuncNames : Option (List MDOperand)
  exportForEachNames : Option (List MDOperand)
  exportForEachSignatures : Option (List MDOperand)
  pragmaEntries : Option (List (List MDOperand))
  objectSlots : Option (List MDOperand)
  compilerVersion : Option Nat
  optimizationLevel : Option Nat
  floatPrecision : Option Nat
deriving DecidableEq

/-- The state of a `MetadataExtractor` instance: the private fields of the
class in MetadataExtractor.h (lines 41-59), with C strings as `String`,
`uint32_t` values as `Nat` below `2^32`, and the parallel C arrays plus their
separate count fields kept separate exactly as in the source. -/
structure MetadataExtractor where
  mExportVarCount : Nat
  mExportFuncCount : Nat
  mExportForEachSignatureCount : Nat
  mExportVarNameList : List String
  mExportFuncNameList : List String
  mExportForEachNameList : List String
  mExportForEachSignatureList : List Nat
  mPragmaCount : Nat
  mPragmaKeyList : List String
  mPragmaValueList : List String
  mObjectSlotCount : Nat
  mObjectSlotList : List Nat
  mCompilerVersion : Nat
  mOptimizationLevel : Nat
  mRSFloatPrecision : RSFloatPrecision
deriving DecidableEq

/-- Header line 97: `return mExportVarCount;`. -/
def MetadataExtractor.getExportVarCount (self : MetadataExtractor) : Nat :=
  self.mExportVarCount

/-- Header line 104: `return mExportVarNameList;`. -/
def MetadataExtractor.getExportVarNameList (self : MetadataExtractor) : List String :=
  self.mExportVarNameList

/-- Header line 111: `return mExportFuncCount;`. -/
def MetadataExtractor.getExportFuncCount (self : MetadataExtractor) : Nat :=
  self.mExportFuncCount

/-- Header line 118: `return mExportFuncNameList;`. -/
def MetadataExtractor.getExportFuncNameList (self : MetadataExtractor) : List String :=
  self.mExportFuncNameList

/-- Header line 125: `return mExportForEachSignatureCount;`. -/
def MetadataExtractor.getExportForEachSignatureCount (self : MetadataExtractor) : Nat :=
  self.mExportForEachSignatureCount

/-- Header line 132: `return mExportForEachSignatureList;`. -/
def MetadataExtractor.getExportForEachSignatureList (self : MetadataExtractor) : List Nat :=
  self.mExportForEachSignatureList

/-- Header line 139: `return mExportForEachNameList;`. -/
def MetadataExtractor.getExportForEachNameList (self : MetadataExtractor) : List String :=
  self.mExportForEachNameList

/-- Header line 146: `return mPragmaCount;`. -/
def MetadataExtractor.getPragmaCount (self : MetadataExtractor) : Nat :=
  self.mPragmaCount

/-- Header line 153: `return mPragmaKeyList;`. -/
def MetadataExtractor.getPragmaKeyList (self : MetadataExtractor) : List String :=
  self.mPragmaKeyList

/-- Header line 160: `return mPragmaValueList;`. -/
def MetadataExtractor.getPragmaValueList (self : MetadataExtractor) : List String :=
  self.mPragmaValueList

/-- Header line 167: `return mObjectSlotCount;`. -/
def MetadataExtractor.getObjectSlotCount (self : MetadataExtractor) : Nat :=
  self.mObjectSlotCount

/-- Header line 175: `return mObjectSlotList;`. -/
def MetadataExtractor.getObjectSlotList (self : MetadataExtractor) : List Nat :=
  self.mObjectSlotList

/-- Header line 182: `return mCompilerVersion;`. -/
def MetadataExtractor.getCompilerVersion (self : MetadataExtractor) : Nat :=
  self.mCompilerVersion

/-- Header line 189: `return mOptimizationLevel;`. -/
def MetadataExtractor.getOptimizationLevel (self : MetadataExtractor) : Nat :=
  self.mOptimizationLevel

/-- Header line 196: `return mRSFloatPrecision;`. -/
def MetadataExtractor.getRSFloatPrecision (self : MetadataExtractor) : RSFloatPrecision :=
  self.mRSFloatPrecision

/-- Header line 206: `return sig & 0x01;` (the `uint32_t` result converts to
`bool` as "nonzero"). -/
def MetadataExtractor.hasForEachSignatureIn (sig : Nat) : Bool :=
  (sig &&& 0x01) != 0

/-- Header line 216: `return sig & 0x02;`. -/
def MetadataExtractor.hasForEachSignatureOut (sig : Nat) : Bool :=
  (sig &&& 0x02) != 0

/-- Header line 226: `return sig & 0x04;`. -/
def MetadataExtractor.hasForEachSignatureUsrData (sig : Nat) : Bool :=
  (sig &&& 0x04) != 0

/-- Header line 236: `return sig & 0x08;`. -/
def MetadataExtractor.hasForEachSignatureX (sig : Nat) : Bool :=
  (sig &&& 0x08) != 0

/-- Header line 246: `return sig & 0x10;`. -/
def MetadataExtractor.hasForEachSignatureY (sig : Nat) : Bool :=
  (sig &&& 0x10) != 0

/-- Header line 256: `return sig & 0x20;`. -/
def MetadataExtractor.hasForEachSignatureKernel (sig : Nat) : Bool :=
  (sig &&& 0x20) != 0

/-- The six signature predicates applied to one value, in header order. -/
def signaturePredicates (sig : Nat) : List Bool :=
  [MetadataExtractor.hasForEachSignatureIn sig,
   MetadataExtractor.hasForEachSignatureOut sig,
   MetadataExtractor.hasForEachSignatureUsrData sig,
   MetadataExtractor.hasForEachSignatureX sig,
   MetadataExtractor.hasForEachSignatureY sig,
   MetadataExtractor.hasForEachSignatureKernel sig]

/-- Modelled from the spec: the string-copying step of the missing
`populateVarNameMetadata` / `populateFuncNameMetadata` / name half of
`populateForEachMetadata` bodies.  Per spec section 4.1, each operand of a
name node must be a string; "a non-string entry where a string name is
expected" is a failure. -/
def extractStrings : List MDOperand → Option (List String)
  | [] => some []
  | MDOperand.str s :: rest => (extractStrings rest).map (fun l => s :: l)
  | MDOperand.int _ :: _ => none

/-- Modelled from the spec: the integer-copying step of the missing
`populateObjectSlotMetadata` body and of the signature half of
`populateForEachMetadata`.  Per spec sections 4.1 and 7, a non-integer
operand where an integer is expected is a failure; values are stored into
`uint32_t` arrays, hence the reduction modulo `2 ^ 32`. -/
def extractInts : List MDOperand → Option (List Nat)
  | [] => some []
  | MDOperand.int v :: rest => (extractInts rest).map (fun l => v % 2 ^ 32 :: l)
  | MDOperand.str _ :: _ => none

/-- Modelled from the spec: the body of `populateForEachMetadata` (declared at
header lines 64-65, body not in the tree).  Per spec sections 4.1 and 7, an
absent node yields a zero-length table, a length mismatch between the names
node and the signatures node is a failure, and operands of the wrong kind are
failures. -/
def populateForEachMetadata (names sigs : Option (List MDOperand)) :
    Option (List String × List Nat) :=
  if (names.getD []).length = (sigs.getD []).length then
    match extractStrings (names.getD []), extractInts (sigs.getD []) with
    | some ns, some ss => some (ns, ss)
    | _, _ => none
  else none

/-- Modelled from the spec: the body of `populatePragmaMetadata` (declared
`void` at header line 67, body not in the tree).  Per spec section 4.1 each
pragma entry is expected to be a key/value pair of strings; since the
declaration returns `void` this helper reports no failure, and entries in the
expected shape are copied into the parallel key/value tables. -/
def populatePragmaMetadata : List (List MDOperand) → List (String × String)
  | [] => []
  | [MDOperand.str k, MDOperand.str v] :: rest =>
      (k, v) :: populatePragmaMetadata rest
  | _ :: rest => populatePragmaMetadata rest

/-- Modelled from the spec: the body of `MetadataExtractor::extract` (declared
at header line 92, body not in the tree).  Per spec section 4.1 it locates the
five well-known categories plus the three scalar entries, copies each present
category into the owned tables (an absent category yields a zero-length
table, not a failure), and returns failure (`none`) when a node's shape
violates the expected structure. -/
def extract (m : Module) : Option MetadataExtractor :=
  match extractStrings (m.exportVarNames.getD []) with
  | none => none
  | some vars =>
    match extractStrings (m.exportFuncNames.getD []) with
    | none => none
    | some funcs =>
      match populateForEachMetadata m.exportForEachNames m.exportForEachSignatures with
      | none => none
      | some (feNames, feSigs) =>
        match extractInts (m.objectSlots.getD []) with
        | none => none
        | some slots =>
          let prs := populatePragmaMetadata (m.pragmaEntries.getD [])
          some
            { mExportVarCount := vars.length
              mExportFuncCount := funcs.length
              mExportForEachSignatureCount := feNames.length
              mExportVarNameList := vars
              mExportFuncNameList := funcs
              mExportForEachNameList := feNames
              mExportForEachSignatureList := feSigs
              mPragmaCount := prs.length
              mPragmaKeyList := prs.map Prod.fst
              mPragmaValueList := prs.map Prod.snd
              mObjectSlotCount := slots.length
              mObjectSlotList := slots
              mCompilerVersion := (m.compilerVersion.getD 0) % 2 ^ 32
              mOptimizationLevel := (m.optimizationLevel.getD 0) % 2 ^ 32
              mRSFloatPrecision :=
                if m.floatPrecision.getD 0 = 1 then RSFloatPrecision.RS_FP_Relaxed
                else RSFloatPrecision.RS_FP_Full }

/-- Modelled from the spec: the constructors (header lines 76 and 83, bodies
not in the tree) leave the instance in the default/unset state until
extraction: all counts and scalars 0, all tables empty, precision Full (spec
sections 3 and 4.1). -/
def mkMetadataExtractor : MetadataExtractor :=
  { mExportVarCount := 0
    mExportFuncCount := 0
    mExportForEachSignatureCount := 0
    mExportVarNameList := []
    mExportFuncNameList := []
    mExportForEachNameList := []
    mExportForEachSignatureList := []
    mPragmaCount := 0
    mPragmaKeyList := []
    mPragmaValueList := []
    mObjectSlotCount := 0
    mObjectSlotList := []
    mCompilerVersion := 0
    mOptimizationLevel := 0
    mRSFloatPrecision := RSFloatPrecision.RS_FP_Full }

/-- Modelled from the spec: `extract()` as a step on the full state of the
computation, the receiver instance paired with the source module.  Spec
section 4.3: "Side effects: none beyond internal table population; does not
mutate the source module's node contents" — the step returns the success
flag, the instance after the call (populated on success; on failure no
consistent state is guaranteed, modelled as the instance left as it was), and
the module after the call. -/
def extractStep (self : MetadataExtractor) (m : Module) :
    (Bool × MetadataExtractor) × Module :=
  match extract m with
  | some e => ((true, e), m)
  | none => ((false, self), m)

/-- `extractStrings` yields one string per operand. -/
theorem extractStrings_length (ops : List MDOperand) (ns : List String)
    (h : extractStrings ops = some ns) : ns.length = ops.length := by
  induction ops generalizing ns with
  | nil => simp [extractStrings] at h; simp [← h]
  | cons op rest ih =>
    cases op with
    | str s =>
      simp only [extractStrings, Option.map_eq_some'] at h
      obtain ⟨l, hl, rfl⟩ := h
      simp [ih l hl]
    | int v => simp [extractStrings] at h

/-- `extractInts` yields one integer per operand. -/
theorem extractInts_length (ops : List MDOperand) (vs : List Nat)
    (h : extractInts ops = some vs) : vs.length = ops.length := by
  induction ops generalizing vs with
  | nil => simp [extractInts] at h; simp [← h]
  | cons op rest ih =>
    cases op with
    | str s => simp [extractInts] at h
    | int v =>
      simp only [extractInts, Option.map_eq_some'] at h
      obtain ⟨l, hl, rfl⟩ := h
      simp [ih l hl]

/-- On success, `populateForEachMetadata` returns name and signature tables
of equal length. -/
theorem populateForEachMetadata_length (names sigs : Option (List MDOperand))
    (ns : List String) (ss : List Nat)
    (h : populateForEachMetadata names sigs = some (ns, ss)) :
    ns.length = ss.length := by
  unfold populateForEachMetadata at h
  split at h
  · split at h
    · cases h
      have hns : extractStrings (names.getD []) = some ns := by assumption
      have hss : extractInts (sigs.getD []) = some ss := by assumption
      have hlen : (names.getD []).length = (sigs.getD []).length := by assumption
      rw [extractStrings_length _ _ hns, extractInts_length _ _ hss, hlen]
    · exact absurd h (by simp)
  · exact absurd h (by simp)

end bcinfo

namespace bcinfo

/-- Claim C1: for every 32-bit signature value `s`, each of the six
`hasForEachSignature*` predicates is true iff its designated mask bit of `s`
is nonzero (masks 0x01, 0x02, 0x04, 0x08, 0x10, 0x20 for In, Out, UsrData,
X, Y, Kernel).  Each predicate is a total Lean function into `Bool`, so it is
pure with no failure mode. -/
theorem hasForEachSignature_mask_iff (s : Nat) (h : s < 2 ^ 32) :
    (MetadataExtractor.hasForEachSignatureIn s = true ↔ s &&& 0x01 ≠ 0) ∧
    (MetadataExtractor.hasForEachSignatureOut s = true ↔ s &&& 0x02 ≠ 0) ∧
    (MetadataExtractor.hasForEachSignatureUsrData s = true ↔ s &&& 0x04 ≠ 0) ∧
    (MetadataExtractor.hasForEachSignatureX s = true ↔ s &&& 0x08 ≠ 0) ∧
    (MetadataExtractor.hasForEachSignatureY s = true ↔ s &&& 0x10 ≠ 0) ∧
    (MetadataExtractor.hasForEachSignatureKernel s = true ↔ s &&& 0x20 ≠ 0) := by
  refine ⟨?_, ?_, ?_, ?_, ?_, ?_⟩ <;>
    simp [MetadataExtractor.hasForEachSignatureIn,
      MetadataExtractor.hasForEachSignatureOut,
      MetadataExtractor.hasForEachSignatureUsrData,
      MetadataExtractor.hasForEachSignatureX,
      MetadataExtractor.hasForEachSignatureY,
      MetadataExtractor.hasForEachSignatureKernel]

/-- Witness for C1: the theorem instantiated at the concrete 32-bit value 11. -/
theorem hasForEachSignature_mask_iff_witness :
    11 < 2 ^ 32 ∧
    ((MetadataExtractor.hasForEachSignatureIn 11 = true ↔ 11 &&& 0x01 ≠ 0) ∧
     (MetadataExtractor.hasForEachSignatureOut 11 = true ↔ 11 &&& 0x02 ≠ 0) ∧
     (MetadataExtractor.hasForEachSignatureUsrData 11 = true ↔ 11 &&& 0x04 ≠ 0) ∧
     (MetadataExtractor.hasForEachSignatureX 11 = true ↔ 11 &&& 0x08 ≠ 0) ∧
     (MetadataExtractor.hasForEachSignatureY 11 = true ↔ 11 &&& 0x10 ≠ 0) ∧
     (MetadataExtractor.hasForEachSignatureKernel 11 = true ↔ 11 &&& 0x20 ≠ 0)) :=
  ⟨by decide, hasForEachSignature_mask_iff 11 (by decide)⟩

/-- Claim C2: on the signature value 0x0B (binary 1011), the In, Out and X
predicates return true while Y, UsrData and Kernel return false. -/
theorem hasForEachSignature_at_0x0B :
    MetadataExtractor.hasForEachSignatureIn 0x0B = true ∧
    MetadataExtractor.hasForEachSignatureOut 0x0B = true ∧
    MetadataExtractor.hasForEachSignatureX 0x0B = true ∧
    MetadataExtractor.hasForEachSignatureY 0x0B = false ∧
    MetadataExtractor.hasForEachSignatureUsrData 0x0B = false ∧
    MetadataExtractor.hasForEachSignatureKernel 0x0B = false := by
  decide

/-- Claim C10: on the signature value 0, all six predicates return false. -/
theorem hasForEachSignature_at_zero :
    MetadataExtractor.hasForEachSignatureIn 0 = false ∧
    MetadataExtractor.hasForEachSignatureOut 0 = false ∧
    MetadataExtractor.hasForEachSignatureUsrData 0 = false ∧
    MetadataExtractor.hasForEachSignatureX 0 = false ∧
    MetadataExtractor.hasForEachSignatureY 0 = false ∧
    MetadataExtractor.hasForEachSignatureKernel 0 = false := by
  decide

/-- Claim C9: the six masks are pairwise disjoint: on each of the six
single-bit signature values 0x01, 0x02, 0x04, 0x08, 0x10, 0x20, exactly one
of the six predicates returns true. -/
theorem signaturePredicates_single_bit :
    (signaturePredicates 0x01).count true = 1 ∧
    (signaturePredicates 0x02).count true = 1 ∧
    (signaturePredicates 0x04).count true = 1 ∧
    (signaturePredicates 0x08).count true = 1 ∧
    (signaturePredicates 0x10).count true = 1 ∧
    (signaturePredicates 0x20).count true = 1 := by
  decide

/-- Claim C3: each of the six predicates depends only on its own mask bit:
any two 32-bit values that agree on that mask bit get the same answer from
that predicate (so bits outside the six defined masks never affect any
predicate, and arbitrary 32-bit inputs are well-defined). -/
theorem hasForEachSignature_depends_only_on_own_bit (s t : Nat)
    (hs : s < 2 ^ 32) (ht : t < 2 ^ 32) :
    (s &&& 0x01 = t &&& 0x01 →
      MetadataExtractor.hasForEachSignatureIn s =
        MetadataExtractor.hasForEachSignatureIn t) ∧
    (s &&& 0x02 = t &&& 0x02 →
      MetadataExtractor.hasForEachSignatureOut s =
        MetadataExtractor.hasForEachSignatureOut t) ∧
    (s &&& 0x04 = t &&& 0x04 →
      MetadataExtractor.hasForEachSignatureUsrData s =
        MetadataExtractor.hasForEachSignatureUsrData t) ∧
    (s &&& 0x08 = t &&& 0x08 →
      MetadataExtractor.hasForEachSignatureX s =
        MetadataExtractor.hasForEachSignatureX t) ∧
    (s &&& 0x10 = t &&& 0x10 →
      MetadataExtractor.hasForEachSignatureY s =
        MetadataExtractor.hasForEachSignatureY t) ∧
    (s &&& 0x20 = t &&& 0x20 →
      MetadataExtractor.hasForEachSignatureKernel s =
        MetadataExtractor.hasForEachSignatureKernel t) := by
  refine ⟨?_, ?_, ?_, ?_, ?_, ?_⟩ <;> intro h <;>
    simp [MetadataExtractor.hasForEachSignatureIn,
      MetadataExtractor.hasForEachSignatureOut,
      MetadataExtractor.hasForEachSignatureUsrData,
      MetadataExtractor.hasForEachSignatureX,
      MetadataExtractor.hasForEachSignatureY,
      MetadataExtractor.hasForEachSignatureKernel, h]

/-- Witness for C3: each conjunct applied at a concrete pair of 32-bit values
agreeing on the relevant mask bit.  5 and 7 agree on bit 0x01; 8 and 12 on
0x02; 4 and 5 on 0x04; 8 and 9 on 0x08; 16 and 17 on 0x10; 32 and 33 on
0x20. -/
theorem hasForEachSignature_depends_only_on_own_bit_witness :
    MetadataExtractor.hasForEachSignatureIn 5 =
      MetadataExtractor.hasForEachSignatureIn 7 ∧
    MetadataExtractor.hasForEachSignatureOut 8 =
      MetadataExtractor.hasForEachSignatureOut 12 ∧
    MetadataExtractor.hasForEachSignatureUsrData 4 =
      MetadataExtractor.hasForEachSignatureUsrData 5 ∧
    MetadataExtractor.hasForEachSignatureX 8 =
      MetadataExtractor.hasForEachSignatureX 9 ∧
    MetadataExtractor.hasForEachSignatureY 16 =
      MetadataExtractor.hasForEachSignatureY 17 ∧
    MetadataExtractor.hasForEachSignatureKernel 32 =
      MetadataExtractor.hasForEachSignatureKernel 33 :=
  ⟨(hasForEachSignature_depends_only_on_own_bit 5 7 (by decide) (by decide)).1
      (by decide),
   (hasForEachSignature_depends_only_on_own_bit 8 12 (by decide) (by decide)).2.1
      (by decide),
   (hasForEachSignature_depends_only_on_own_bit 4 5 (by decide) (by decide)).2.2.1
      (by decide),
   (hasForEachSignature_depends_only_on_own_bit 8 9 (by decide) (by decide)).2.2.2.1
      (by decide),
   (hasForEachSignature_depends_only_on_own_bit 16 17 (by decide) (by decide)).2.2.2.2.1
      (by decide),
   (hasForEachSignature_depends_only_on_own_bit 32 33 (by decide) (by decide)).2.2.2.2.2
      (by decide)⟩

/-- Claim C4: after a successful `extract()`, the ForEach name list and the
ForEach signature list both have length `getExportForEachSignatureCount()`,
and the pragma key list and pragma value list both have length
`getPragmaCount()`. -/
theorem extract_parallel_lists (m : Module) (e : MetadataExtractor)
    (h : extract m = some e) :
    e.getExportForEachNameList.length = e.getExportForEachSignatureCount ∧
    e.getExportForEachSignatureList.length = e.getExportForEachSignatureCount ∧
    e.getPragmaKeyList.length = e.getPragmaCount ∧
    e.getPragmaValueList.length = e.getPragmaCount := by
  unfold extract at h
  cases hv : extractStrings (m.exportVarNames.getD []) with
  | none => rw [hv] at h; exact absurd h (by simp)
  | some vars =>
    rw [hv] at h
    cases hf : extractStrings (m.exportFuncNames.getD []) with
    | none => rw [hf] at h; exact absurd h (by simp)
    | some funcs =>
      rw [hf] at h
      cases hfe : populateForEachMetadata m.exportForEachNames
          m.exportForEachSignatures with
      | none => rw [hfe] at h; exact absurd h (by simp)
      | some p =>
        obtain ⟨feNames, feSigs⟩ := p
        rw [hfe] at h
        cases hsl : extractInts (m.objectSlots.getD []) with
        | none => rw [hsl] at h; exact absurd h (by simp)
        | some slots =>
          rw [hsl] at h
          simp only [Option.some_inj] at h
          subst h
          refine ⟨rfl, ?_, ?_, ?_⟩
          · simpa [MetadataExtractor.getExportForEachSignatureList,
              MetadataExtractor.getExportForEachSignatureCount] using
              (populateForEachMetadata_length _ _ _ _ hfe).symm
          · simp [MetadataExtractor.getPragmaKeyList,
              MetadataExtractor.getPragmaCount]
          · simp [MetadataExtractor.getPragmaValueList,
              MetadataExtractor.getPragmaCount]

/-- A module carrying one exported kernel "foo" with signature 0x0B and one
pragma pair, for exercising the extraction model on concrete data. -/
def kernelTestModule : Module :=
  { exportVarNames := none
    exportFuncNames := none
    exportForEachNames := some [MDOperand.str "foo"]
    exportForEachSignatures := some [MDOperand.int 11]
    pragmaEntries := some [[MDOperand.str "version", MDOperand.str "1"]]
    objectSlots := none
    compilerVersion := none
    optimizationLevel := none
    floatPrecision := none }

/-- The extractor state that `extract` produces on `kernelTestModule`. -/
def kernelTestExtractor : MetadataExtractor :=
  { mExportVarCount := 0
    mExportFuncCount := 0
    mExportForEachSignatureCount := 1
    mExportVarNameList := []
    mExportFuncNameList := []
    mExportForEachNameList := ["foo"]
    mExportForEachSignatureList := [11]
    mPragmaCount := 1
    mPragmaKeyList := ["version"]
    mPragmaValueList := ["1"]
    mObjectSlotCount := 0
    mObjectSlotList := []
    mCompilerVersion := 0
    mOptimizationLevel := 0
    mRSFloatPrecision := RSFloatPrecision.RS_FP_Full }

/-- Witness for C4: the theorem applied to the concrete one-kernel module. -/
theorem extract_parallel_lists_witness :
    kernelTestExtractor.getExportForEachNameList.length =
      kernelTestExtractor.getExportForEachSignatureCount ∧
    kernelTestExtractor.getExportForEachSignatureList.length =
      kernelTestExtractor.getExportForEachSignatureCount ∧
    kernelTestExtractor.getPragmaKeyList.length =
      kernelTestExtractor.getPragmaCount ∧
    kernelTestExtractor.getPragmaValueList.length =
      kernelTestExtractor.getPragmaCount :=
  extract_parallel_lists kernelTestModule kernelTestExtractor (by decide)

/-- Claim C5: on a module with none of the five metadata categories present,
`extract()` succeeds and every count accessor returns 0. -/
theorem extract_absent_categories (m : Module)
    (h1 : m.exportVarNames = none) (h2 : m.exportFuncNames = none)
    (h3 : m.exportForEachNames = none) (h4 : m.exportForEachSignatures = none)
    (h5 : m.pragmaEntries = none) (h6 : m.objectSlots = none) :
    ∃ e, extract m = some e ∧
      e.getExportVarCount = 0 ∧ e.getExportFuncCount = 0 ∧
      e.getExportForEachSignatureCount = 0 ∧ e.getPragmaCount = 0 ∧
      e.getObjectSlotCount = 0 := by
  unfold extract
  rw [h1, h2, h3, h4, h5, h6]
  exact ⟨_, rfl, rfl, rfl, rfl, rfl, rfl⟩

/-- A module in which every named-metadata node and scalar entry is absent. -/
def emptyTestModule : Module :=
  { exportVarNames := none
    exportFuncNames := none
    exportForEachNames := none
    exportForEachSignatures := none
    pragmaEntries := none
    objectSlots := none
    compilerVersion := none
    optimizationLevel := none
    floatPrecision := none }

/-- Witness for C5: the theorem applied to the wholly empty module. -/
theorem extract_absent_categories_witness :
    ∃ e, extract emptyTestModule = some e ∧
      e.getExportVarCount = 0 ∧ e.getExportFuncCount = 0 ∧
      e.getExportForEachSignatureCount = 0 ∧ e.getPragmaCount = 0 ∧
      e.getObjectSlotCount = 0 :=
  extract_absent_categories emptyTestModule rfl rfl rfl rfl rfl rfl

/-- Claim C6: on a module whose ForEach names node and ForEach signatures
node have different lengths, `extract()` fails. -/
theorem extract_foreach_mismatch_fails (m : Module) (ns ss : List MDOperand)
    (h1 : m.exportForEachNames = some ns)
    (h2 : m.exportForEachSignatures = some ss)
    (h3 : ns.length ≠ ss.length) : extract m = none := by
  have hfe : populateForEachMetadata m.exportForEachNames
      m.exportForEachSignatures = none := by
    unfold populateForEachMetadata
    rw [h1, h2]
    simp [h3]
  unfold extract
  cases hv : extractStrings (m.exportVarNames.getD []) with
  | none => rfl
  | some vars =>
    cases hf : extractStrings (m.exportFuncNames.getD []) with
    | none => rfl
    | some funcs => rw [hfe]

/-- A module whose ForEach names node has 3 entries but whose signatures node
has 2. -/
def mismatchTestModule : Module :=
  { exportVarNames := none
    exportFuncNames := none
    exportForEachNames :=
      some [MDOperand.str "a", MDOperand.str "b", MDOperand.str "c"]
    exportForEachSignatures := some [MDOperand.int 1, MDOperand.int 2]
    pragmaEntries := none
    objectSlots := none
    compilerVersion := none
    optimizationLevel := none
    floatPrecision := none }

/-- Witness for C6: the theorem applied to the 3-names/2-signatures module. -/
theorem extract_foreach_mismatch_fails_witness :
    extract mismatchTestModule = none :=
  extract_foreach_mismatch_fails mismatchTestModule
    [MDOperand.str "a", MDOperand.str "b", MDOperand.str "c"]
    [MDOperand.int 1, MDOperand.int 2] rfl rfl (by decide)

/-- Claim C7: a freshly constructed instance is in the empty/zero default
state: all count getters return 0, the list getters return empty lists,
`getCompilerVersion` and `getOptimizationLevel` return 0, and
`getRSFloatPrecision` returns `RS_FP_Full`. -/
theorem mkMetadataExtractor_defaults :
    mkMetadataExtractor.getExportVarCount = 0 ∧
    mkMetadataExtractor.getExportFuncCount = 0 ∧
    mkMetadataExtractor.getExportForEachSignatureCount = 0 ∧
    mkMetadataExtractor.getPragmaCount = 0 ∧
    mkMetadataExtractor.getObjectSlotCount = 0 ∧
    mkMetadataExtractor.getExportVarNameList = [] ∧
    mkMetadataExtractor.getExportFuncNameList = [] ∧
    mkMetadataExtractor.getExportForEachNameList = [] ∧
    mkMetadataExtractor.getExportForEachSignatureList = [] ∧
    mkMetadataExtractor.getPragmaKeyList = [] ∧
    mkMetadataExtractor.getPragmaValueList = [] ∧
    mkMetadataExtractor.getObjectSlotList = [] ∧
    mkMetadataExtractor.getCompilerVersion = 0 ∧
    mkMetadataExtractor.getOptimizationLevel = 0 ∧
    mkMetadataExtractor.getRSFloatPrecision = RSFloatPrecision.RS_FP_Full := by
  decide

/-- Claim C8: `extract()` has no side effect on the source module: for every
receiver state and every module, the module component of the full state is
unchanged by the extraction step. -/
theorem extractStep_preserves_module (self : MetadataExtractor) (m : Module) :
    (extractStep self m).2 = m := by
  unfold extractStep
  cases extract m <;> rfl

end bcinfo
